import Mathlib

/-!
Shallow embedding of the Celix remote-service-admin sources:
  - rsa_shm_import_registration.c (import-side registration lifecycle)
  - rsa_json_rpc_endpoint_impl.c (export-side JSON-RPC endpoint)
Pointers are modelled by `Option Nat` identities, external collaborators
(jansson, interceptors, jsonRpc_call, trackers, mutex creation) by explicit
parameters, and observable side effects (log lines, proxy create/destroy,
call-log records, allocations and frees) by explicit effect lists.
-/

set_option maxRecDepth 8192

namespace Celix

/-- The celix_status_t values used by the embedded functions
(CELIX_SUCCESS, CELIX_ILLEGAL_ARGUMENT, CELIX_ILLEGAL_STATE,
CELIX_SERVICE_EXCEPTION); other numeric codes are not produced by
the embedded code paths. -/
inductive CelixStatus
  | success
  | illegalArgument
  | illegalState
  | serviceException
  deriving DecidableEq, Repr

/-- Endpoint description: service name, numeric service id, and the
free-form properties map (modelled as an association list, first match
wins, as celix_properties_get does). -/
structure EndpointDescription where
  serviceName : String
  serviceId : Nat
  properties : List (String × String)
  deriving DecidableEq, Repr

/-- celix_properties_get: first matching key, or none. -/
def celix_properties_get (props : List (String × String)) (key : String) : Option String :=
  (props.find? (fun p => p.1 = key)).map (fun p => p.2)

/-- Modelled from the spec: the OSGI_RSA_SERVICE_IMPORTED_CONFIGS property
key (the imported-configuration property); its defining header is not among
the provided sources, only the key identity matters to the claims. -/
def serviceImportedConfigsKey : String := "service.imported.configs"

/-- Modelled from the spec: the RSA_RPC_TYPE_PREFIX macro (the recognized
transport/codec tag that configuration entries must start with); the spec
describes it as a fixed string tag and its header is not among the provided
sources. -/
def rsaRpcTypePfx : String := "celix.remote.admin.rpc_type."

/-- Modelled from the spec: the RSA_RPC_TYPE_KEY macro used when building
the codec service filter string. -/
def rsaRpcTypeKey : String := "celix.remote.admin.rpc_type"

/-- The filter string built by snprintf(filter, 128, "(%s=%s)", key, type). -/
def mkRpcFilter (rsaRpcType : String) : String :=
  "(" ++ rsaRpcTypeKey ++ "=" ++ rsaRpcType ++ ")"

/-- The isspace characters trimmed by utils_stringTrim. -/
def isSpaceChar (c : Char) : Bool :=
  c = ' ' ∨ c = '\t' ∨ c = '\n' ∨ c = '\x0b' ∨ c = '\x0c' ∨ c = '\r'

/-- Drop leading isspace characters. -/
def dropSpaces : List Char → List Char
  | [] => []
  | c :: rest => if isSpaceChar c then dropSpaces rest else c :: rest

/-- Modelled from the spec: utils_stringTrim (defined outside the provided
sources) removes leading and trailing whitespace from a configuration list
entry. -/
def trimChars (cs : List Char) : List Char :=
  ((dropSpaces (dropSpaces cs).reverse)).reverse

/-- Does the character list start with the given tag characters (the
strncmp against the recognized tag). -/
def startsWithChars : List Char → List Char → Bool
  | [], _ => true
  | _ :: _, [] => false
  | p :: ps, c :: cs => p = c ∧ startsWithChars ps cs

/-- Tokenizer core of strtok_r: maximal nonempty runs of non-separator
characters (consecutive separators yield no empty tokens). -/
def strtokAux (sep : Char) : List Char → List Char → List (List Char)
  | [], acc => if acc.isEmpty then [] else [acc.reverse]
  | c :: rest, acc =>
    if c = sep then
      if acc.isEmpty then strtokAux sep rest []
      else acc.reverse :: strtokAux sep rest []
    else strtokAux sep rest (c :: acc)

/-- The strtok_r loop of importRegistration_create over the "," delimiter. -/
def strtokComma (s : String) : List (List Char) :=
  strtokAux ',' s.data []

/-- Heap resources allocated and released by the two constructors. -/
inductive Resource
  | importStruct
  | endpointClone
  | icCopy
  | epStruct
  | epDesc
  | mutex
  deriving DecidableEq, Repr

/-- The import_registration struct: cloned endpoint description, the
request-sender service id, the codec tracker id, the bound codec factory
(pointer identity, none = NULL) and the installed proxy service id
(-1 when unbound). -/
structure ImportRegistration where
  endpointDesc : EndpointDescription
  reqSenderSvcId : Int
  rpcSvcTrkId : Int
  rpcFac : Option Nat
  proxySvcId : Int
  deriving DecidableEq, Repr

/-- Inputs to importRegistration_create: pointer-validity of the arguments,
the endpoint description with the external endpointDescription_isInvalid
verdict, and the externally determined tracker registration result. -/
structure ImportCreateInput where
  ctxNull : Bool
  logNull : Bool
  descInvalid : Bool
  endpointDesc : EndpointDescription
  reqSenderSvcId : Int
  importOutNull : Bool
  trkId : Int
  deriving DecidableEq, Repr

/-- Result of importRegistration_create: the returned status, whether and
with what value *importOut was set, and the allocation/free effect lists in
program order. -/
structure ImportCreateResult where
  status : CelixStatus
  importOut : Option ImportRegistration
  allocated : List Resource
  freed : List Resource
  deriving DecidableEq, Repr

/-- importRegistration_create from rsa_shm_import_registration.c.
Faithful to the source, including the fact that the
missing-imported-configs and no-recognized-tag error paths jump to the
cleanup labels with `status` still CELIX_SUCCESS. -/
def importRegistration_create (inp : ImportCreateInput) : ImportCreateResult :=
  if inp.ctxNull ∨ inp.logNull ∨ inp.descInvalid ∨ inp.reqSenderSvcId < 0 ∨ inp.importOutNull then
    ⟨CelixStatus.illegalArgument, none, [], []⟩
  else
    match celix_properties_get inp.endpointDesc.properties serviceImportedConfigsKey with
    | none =>
      ⟨CelixStatus.success, none, [Resource.importStruct, Resource.endpointClone],
        [Resource.endpointClone, Resource.importStruct]⟩
    | some configs =>
      let alloc := [Resource.importStruct, Resource.endpointClone, Resource.icCopy]
      let freeAll := [Resource.icCopy, Resource.endpointClone, Resource.importStruct]
      match (strtokComma configs).find? (fun t =>
          startsWithChars rsaRpcTypePfx.data (trimChars t)) with
      | none => ⟨CelixStatus.success, none, alloc, freeAll⟩
      | some token =>
        let rsaRpcType := String.mk (trimChars token)
        if 128 ≤ (mkRpcFilter rsaRpcType).length then
          ⟨CelixStatus.illegalArgument, none, alloc, freeAll⟩
        else if inp.trkId < 0 then
          ⟨CelixStatus.serviceException, none, alloc, freeAll⟩
        else
          ⟨CelixStatus.success,
            some ⟨inp.endpointDesc, inp.reqSenderSvcId, inp.trkId, none, -1⟩,
            alloc, [Resource.icCopy]⟩

/-- Observable effects of the import-registration codec tracker callbacks. -/
inductive ImportEffect
  | logInfo (msg : String)
  | logError (msg : String)
  | createProxyCall (facId : Nat)
  | destroyProxyCall (facId : Nat) (proxySvcId : Int)
  deriving DecidableEq, Repr

/-- A codec (rsa_rpc_factory_t) service: its pointer identity and the
behaviour of its createProxy operation (some proxy service id on
CELIX_SUCCESS, none on failure). -/
structure RpcFactory where
  id : Nat
  createProxy : EndpointDescription → Int → Option Int

/-- importRegistration_addRpcFac: the tracker add callback. -/
def importRegistration_addRpcFac (imp : ImportRegistration) (svc : RpcFactory) :
    ImportRegistration × List ImportEffect :=
  if imp.rpcFac.isSome then
    (imp, [ImportEffect.logInfo "RSA import reg: A proxy supports only one rpc service."])
  else
    match svc.createProxy imp.endpointDesc imp.reqSenderSvcId with
    | none =>
      (imp, [ImportEffect.logInfo "RSA export reg: RSA rpc service add.",
             ImportEffect.createProxyCall svc.id,
             ImportEffect.logError "RSA import reg: Error Installing proxy."])
    | some proxySvcId =>
      ({ imp with proxySvcId := proxySvcId, rpcFac := some svc.id },
       [ImportEffect.logInfo "RSA export reg: RSA rpc service add.",
        ImportEffect.createProxyCall svc.id])

/-- importRegistration_removeRpcFac: the tracker remove callback; `svc` is
the removed service pointer (none = NULL). -/
def importRegistration_removeRpcFac (imp : ImportRegistration) (svc : Option Nat) :
    ImportRegistration × List ImportEffect :=
  if imp.rpcFac ≠ svc then
    (imp, [ImportEffect.logInfo "RSA import reg: A endponit supports only one rpc service."])
  else
    match svc with
    | some facId =>
      if 0 ≤ imp.proxySvcId then
        ({ imp with rpcFac := none, proxySvcId := -1 },
         [ImportEffect.logInfo "RSA import reg: RSA rpc service remove.",
          ImportEffect.destroyProxyCall facId imp.proxySvcId])
      else
        (imp, [ImportEffect.logInfo "RSA import reg: RSA rpc service remove."])
    | none =>
      (imp, [ImportEffect.logInfo "RSA import reg: RSA rpc service remove."])

/-- The rsa_json_rpc_endpoint struct as seen by the tracker callbacks and
handleRequest: endpoint identity, whether a call-log sink (callsLogFile) is
configured, the lock-protected bound service pointer (identity, none =
NULL) and the parsed interface descriptor pointer. -/
structure JsonRpcEndpoint where
  serviceName : String
  serviceId : Nat
  hasCallsLogFile : Bool
  service : Option Nat
  intfType : Option Nat
  deriving DecidableEq, Repr

/-- Observable effects of the export endpoint service tracker callbacks. -/
inductive EndpointEffect
  | logError (msg : String)
  | destroyIntf (intf : Option Nat)
  deriving DecidableEq, Repr

/-- rsaJsonRpcEndpoint_addSvcWithOwner: the tracker add callback.
`parseResult` is the externally determined outcome of
dfi_findAndParseInterfaceDescriptor for this service owner (some descriptor
on CELIX_SUCCESS, none on failure). The callback returns void: no status
escapes. -/
def rsaJsonRpcEndpoint_addSvcWithOwner (ep : JsonRpcEndpoint) (service : Nat)
    (parseResult : Option Nat) : JsonRpcEndpoint × List EndpointEffect :=
  match parseResult with
  | none => (ep, [EndpointEffect.logError "Parse service descriptor failed."])
  | some intf => ({ ep with intfType := some intf, service := some service }, [])

/-- rsaJsonRpcEndpoint_removeSvcWithOwner: the tracker remove callback.
On a match it clears the service pointer and destroys the descriptor (the
intfType field itself is left as the source leaves the dangling pointer). -/
def rsaJsonRpcEndpoint_removeSvcWithOwner (ep : JsonRpcEndpoint) (svc : Nat) :
    JsonRpcEndpoint × List EndpointEffect :=
  if ep.service = some svc then
    ({ ep with service := none }, [EndpointEffect.destroyIntf ep.intfType])
  else
    (ep, [])

/-- The iovec request buffer: base pointer (none = NULL) and iov_len. -/
structure Iovec where
  base : Option String
  len : Nat
  deriving DecidableEq, Repr

/-- External collaborators of rsaJsonRpcEndpoint_handleRequest:
`parse s` is json_loads followed by json_unpack of the "m" signature
(none = json_loads failed, some none = unpack failed, some (some sig) =
decoded); `pre` is remoteInterceptorHandler_invokePreExportCall (false =
veto); `call intf svc s` is jsonRpc_call, producing the return code and
the szResponse string (none = left NULL). -/
structure JsonRpcEnv where
  parse : String → Option (Option String)
  pre : String → Bool
  call : Option Nat → Nat → String → Int × Option String

/-- The response out-parameter after handleRequest returns: untouched on
the early argument-validation return, {NULL, 0} when initialized and never
filled, or a buffer with its iov_len. -/
inductive RespOut
  | untouched
  | nullResp
  | buf (s : String) (len : Nat)
  deriving DecidableEq, Repr

/-- Does the response out-parameter carry no response buffer. -/
def RespOut.noResponse : RespOut → Bool
  | RespOut.buf _ _ => false
  | _ => true

/-- The final response-filling step of handleRequest: if szResponse is
non-NULL the out-parameter gets the buffer with iov_len = strlen + 1 (the
terminating NUL included), otherwise it keeps the initialized {NULL, 0}. -/
def mkRespOut : Option String → RespOut
  | some s => RespOut.buf s (s.length + 1)
  | none => RespOut.nullResp

/-- One structured record of the call-log sink (the fprintf line). -/
structure CallLogRecord where
  service : String
  serviceId : Nat
  requestPayload : String
  responsePayload : Option String
  status : CelixStatus
  deriving DecidableEq, Repr

/-- Everything observable about one rsaJsonRpcEndpoint_handleRequest call:
the returned status, the response out-parameter, the records appended to
the call-log sink, and whether the pre interceptor, post interceptor and
the bound service were invoked. -/
structure HandleOutcome where
  status : CelixStatus
  resp : RespOut
  logRecords : List CallLogRecord
  preInvoked : Bool
  postInvoked : Bool
  serviceInvoked : Bool
  deriving DecidableEq, Repr

/-- rsaJsonRpcEndpoint_handleRequest from rsa_json_rpc_endpoint_impl.c.
The null-ness of the handle, metadata and responseOut arguments is passed
as booleans; the decode-failure paths jump past the call-log fprintf, as
in the source. -/
def rsaJsonRpcEndpoint_handleRequest (env : JsonRpcEnv) (ep : JsonRpcEndpoint)
    (handleNull metadataNull responseOutNull : Bool) (request : Option Iovec) :
    HandleOutcome :=
  match request with
  | none => ⟨CelixStatus.illegalArgument, RespOut.untouched, [], false, false, false⟩
  | some req =>
    match req.base with
    | none => ⟨CelixStatus.illegalArgument, RespOut.untouched, [], false, false, false⟩
    | some reqStr =>
      if handleNull ∨ metadataNull ∨ req.len = 0 ∨ responseOutNull then
        ⟨CelixStatus.illegalArgument, RespOut.untouched, [], false, false, false⟩
      else
        match env.parse reqStr with
        | none =>
          ⟨CelixStatus.illegalArgument, RespOut.nullResp, [], false, false, false⟩
        | some none =>
          ⟨CelixStatus.illegalArgument, RespOut.nullResp, [], false, false, false⟩
        | some (some sig) =>
          let inv : CelixStatus × Option String × Bool × Bool :=
            if env.pre sig then
              match ep.service with
              | some svc =>
                let r := env.call ep.intfType svc reqStr
                (if r.1 ≠ 0 then CelixStatus.serviceException else CelixStatus.success,
                  r.2, true, true)
              | none => (CelixStatus.illegalState, none, true, false)
            else
              (CelixStatus.success, none, false, false)
          let status := inv.1
          let szResponse := inv.2.1
          let resp := mkRespOut szResponse
          let logs := if ep.hasCallsLogFile then
              [⟨ep.serviceName, ep.serviceId, reqStr, szResponse, status⟩]
            else []
          ⟨status, resp, logs, true, inv.2.2.1, inv.2.2.2⟩

/-- Inputs to rsaJsonRpcEndpoint_create: the endpoint description, whether
a call-log file is supplied, and the externally determined results of
celixThreadMutex_create and of the tracker registration. -/
structure EndpointCreateInput where
  endpointDesc : EndpointDescription
  hasLogFile : Bool
  mutexStatus : CelixStatus
  trkId : Int
  deriving DecidableEq, Repr

/-- Result of rsaJsonRpcEndpoint_create: the returned status, whether and
with what value *endpointOut was set, and the allocation/free effect lists
in program order (the mutex counts as a resource created and destroyed). -/
structure EndpointCreateResult where
  status : CelixStatus
  endpointOut : Option JsonRpcEndpoint
  allocated : List Resource
  freed : List Resource
  deriving DecidableEq, Repr

/-- rsaJsonRpcEndpoint_create from rsa_json_rpc_endpoint_impl.c. -/
def rsaJsonRpcEndpoint_create (inp : EndpointCreateInput) : EndpointCreateResult :=
  let alloc := [Resource.epStruct, Resource.epDesc]
  if inp.mutexStatus ≠ CelixStatus.success then
    ⟨inp.mutexStatus, none, alloc, [Resource.epDesc, Resource.epStruct]⟩
  else if inp.trkId < 0 then
    ⟨CelixStatus.illegalState, none, alloc ++ [Resource.mutex],
      [Resource.mutex, Resource.epDesc, Resource.epStruct]⟩
  else
    ⟨CelixStatus.success,
      some ⟨inp.endpointDesc.serviceName, inp.endpointDesc.serviceId,
        inp.hasLogFile, none, none⟩,
      alloc ++ [Resource.mutex], []⟩

/-- Concrete collaborators for the handleRequest witnesses: json decode
fails on "bad", method extraction fails on "nom", otherwise the signature
is "m1"; the interceptor never vetoes; invocation fails on "err" and
otherwise produces "res". -/
def envC2 : JsonRpcEnv :=
  ⟨fun q => if q = "bad" then none else if q = "nom" then some none else some (some "m1"),
   fun _ => true,
   fun _ _ q => if q = "err" then (1, none) else (0, some "res")⟩

/-- Concrete endpoint with a bound service for the handleRequest witnesses. -/
def epBoundC2 : JsonRpcEndpoint := ⟨"calc2", 7, false, some 3, some 4⟩

/-- Concrete endpoint with no bound service for the handleRequest witnesses. -/
def epFreeC2 : JsonRpcEndpoint := ⟨"calc2", 7, false, none, none⟩

/-- C4: for every import registration with a codec factory already bound,
a further add callback leaves the registration unchanged (factory binding
and proxy id untouched) and only logs the conflict; in particular no
createProxy call is made (first-wins, at most one bound factory). -/
theorem c4_first_wins (imp : ImportRegistration) (svc : RpcFactory) (f : Nat)
    (h : imp.rpcFac = some f) :
    (importRegistration_addRpcFac imp svc).1 = imp ∧
    (importRegistration_addRpcFac imp svc).2 =
      [ImportEffect.logInfo "RSA import reg: A proxy supports only one rpc service."] := by
  unfold importRegistration_addRpcFac
  rw [h]
  exact ⟨rfl, rfl⟩

/-- Witness for c4_first_wins at a concrete bound registration and second
factory. -/
theorem c4_first_wins_witness :
    (importRegistration_addRpcFac ⟨⟨"svcA", 11, []⟩, 2, 3, some 1, 5⟩
        ⟨2, fun _ _ => some 9⟩).1 = ⟨⟨"svcA", 11, []⟩, 2, 3, some 1, 5⟩ ∧
    (importRegistration_addRpcFac ⟨⟨"svcA", 11, []⟩, 2, 3, some 1, 5⟩
        ⟨2, fun _ _ => some 9⟩).2 =
      [ImportEffect.logInfo "RSA import reg: A proxy supports only one rpc service."] :=
  c4_first_wins ⟨⟨"svcA", 11, []⟩, 2, 3, some 1, 5⟩ ⟨2, fun _ _ => some 9⟩ 1 rfl

/-- C5: removing the currently bound factory while a proxy is installed
destroys the proxy via the factory and clears the binding (factory none,
proxy id -1); the dormant registration accepts a later matching factory,
which installs a fresh proxy; removing a factory that is not the bound one
leaves the registration unchanged. -/
theorem c5_remove_rpc_fac (imp : ImportRegistration) (f : Nat) (g : RpcFactory) (p : Int) :
    (imp.rpcFac = some f → 0 ≤ imp.proxySvcId →
      importRegistration_removeRpcFac imp (some f) =
        ({ imp with rpcFac := none, proxySvcId := -1 },
         [ImportEffect.logInfo "RSA import reg: RSA rpc service remove.",
          ImportEffect.destroyProxyCall f imp.proxySvcId])) ∧
    (imp.rpcFac = some f → 0 ≤ imp.proxySvcId →
      g.createProxy imp.endpointDesc imp.reqSenderSvcId = some p →
      (importRegistration_addRpcFac (importRegistration_removeRpcFac imp (some f)).1 g).1 =
        { imp with rpcFac := some g.id, proxySvcId := p }) ∧
    (∀ svc : Option Nat, imp.rpcFac ≠ svc →
      (importRegistration_removeRpcFac imp svc).1 = imp) := by
  refine ⟨?_, ?_, ?_⟩
  · intro hf hp
    unfold importRegistration_removeRpcFac
    rw [hf]
    simp [hp]
  · intro hf hp hc
    unfold importRegistration_removeRpcFac
    rw [hf]
    simp only [ne_eq, not_true_eq_false, if_false, if_neg]
    unfold importRegistration_addRpcFac
    simp [hp, hc]
  · intro svc hne
    unfold importRegistration_removeRpcFac
    simp [hne]

/-- Witness for c5_remove_rpc_fac at a concrete bound registration with an
installed proxy and a fresh factory whose createProxy succeeds. -/
theorem c5_remove_rpc_fac_witness :
    (importRegistration_removeRpcFac ⟨⟨"svcB", 12, []⟩, 2, 3, some 1, 5⟩ (some 1) =
      (⟨⟨"svcB", 12, []⟩, 2, 3, none, -1⟩,
       [ImportEffect.logInfo "RSA import reg: RSA rpc service remove.",
        ImportEffect.destroyProxyCall 1 5])) ∧
    ((importRegistration_addRpcFac
        (importRegistration_removeRpcFac ⟨⟨"svcB", 12, []⟩, 2, 3, some 1, 5⟩ (some 1)).1
        ⟨4, fun _ _ => some 9⟩).1 = ⟨⟨"svcB", 12, []⟩, 2, 3, some 4, 9⟩) ∧
    ((importRegistration_removeRpcFac ⟨⟨"svcB", 12, []⟩, 2, 3, some 1, 5⟩ (some 2)).1 =
      ⟨⟨"svcB", 12, []⟩, 2, 3, some 1, 5⟩) :=
  ⟨(c5_remove_rpc_fac ⟨⟨"svcB", 12, []⟩, 2, 3, some 1, 5⟩ 1 ⟨4, fun _ _ => some 9⟩ 9).1
      rfl (by decide),
   (c5_remove_rpc_fac ⟨⟨"svcB", 12, []⟩, 2, 3, some 1, 5⟩ 1 ⟨4, fun _ _ => some 9⟩ 9).2.1
      rfl (by decide) rfl,
   (c5_remove_rpc_fac ⟨⟨"svcB", 12, []⟩, 2, 3, some 1, 5⟩ 1 ⟨4, fun _ _ => some 9⟩ 9).2.2
      (some 2) (by decide)⟩

/-- C6: when descriptor parsing fails, the service-add callback leaves the
endpoint unchanged (the service pointer is not published) and only logs
the failure; no error escapes the void callback; on successful parsing the
service pointer and descriptor are published. -/
theorem c6_add_svc_parse_failure (ep : JsonRpcEndpoint) (svc i : Nat) :
    (rsaJsonRpcEndpoint_addSvcWithOwner ep svc none =
      (ep, [EndpointEffect.logError "Parse service descriptor failed."])) ∧
    (rsaJsonRpcEndpoint_addSvcWithOwner ep svc (some i) =
      ({ ep with intfType := some i, service := some svc }, [])) :=
  ⟨rfl, rfl⟩

/-- C7: the service-remove callback for the currently bound service clears
the service pointer and destroys the parsed interface descriptor; for any
other service it changes nothing and destroys nothing. -/
theorem c7_remove_svc (ep : JsonRpcEndpoint) (svc : Nat) :
    (ep.service = some svc →
      rsaJsonRpcEndpoint_removeSvcWithOwner ep svc =
        ({ ep with service := none }, [EndpointEffect.destroyIntf ep.intfType])) ∧
    (ep.service ≠ some svc →
      rsaJsonRpcEndpoint_removeSvcWithOwner ep svc = (ep, [])) := by
  unfold rsaJsonRpcEndpoint_removeSvcWithOwner
  constructor
  · intro h; simp [h]
  · intro h; simp [h]

/-- Witness for c7_remove_svc: the bound case and the unrelated-service
case at concrete endpoints. -/
theorem c7_remove_svc_witness :
    (rsaJsonRpcEndpoint_removeSvcWithOwner ⟨"svcC", 13, false, some 8, some 2⟩ 8 =
      (⟨"svcC", 13, false, none, some 2⟩, [EndpointEffect.destroyIntf (some 2)])) ∧
    (rsaJsonRpcEndpoint_removeSvcWithOwner ⟨"svcC", 13, false, some 8, some 2⟩ 9 =
      (⟨"svcC", 13, false, some 8, some 2⟩, [])) :=
  ⟨(c7_remove_svc ⟨"svcC", 13, false, some 8, some 2⟩ 8).1 rfl,
   (c7_remove_svc ⟨"svcC", 13, false, some 8, some 2⟩ 9).2 (by decide)⟩

/-- The response out-parameter produced by mkRespOut is either the
initialized {NULL, 0} or a buffer whose iov_len is strlen + 1. -/
lemma mkRespOut_shape (sz : Option String) :
    mkRespOut sz = RespOut.nullResp ∨
    ∃ str : String, mkRespOut sz = RespOut.buf str (str.length + 1) := by
  cases sz with
  | none => exact Or.inl rfl
  | some s => exact Or.inr ⟨s, rfl⟩

/-- C8: a valid, decodable request that the pre-call interceptor vetoes
returns CELIX_SUCCESS with the response out-parameter still {NULL, 0} and
the bound service not invoked. -/
theorem c8_veto_path (env : JsonRpcEnv) (ep : JsonRpcEndpoint) (req : Iovec)
    (s sig : String) (hb : req.base = some s) (hl : req.len ≠ 0)
    (hp : env.parse s = some (some sig)) (hv : env.pre sig = false) :
    (rsaJsonRpcEndpoint_handleRequest env ep false false false (some req)).status =
        CelixStatus.success ∧
    (rsaJsonRpcEndpoint_handleRequest env ep false false false (some req)).resp =
        RespOut.nullResp ∧
    (rsaJsonRpcEndpoint_handleRequest env ep false false false (some req)).serviceInvoked =
        false := by
  obtain ⟨b, l⟩ := req
  simp only [Iovec.base] at hb
  simp only [Iovec.len] at hl
  subst hb
  unfold rsaJsonRpcEndpoint_handleRequest
  simp [hl, hp, hv, mkRespOut]

/-- Witness for c8_veto_path at a concrete endpoint and vetoing
interceptor. -/
theorem c8_veto_path_witness :
    (rsaJsonRpcEndpoint_handleRequest
        ⟨fun _ => some (some "m1"), fun _ => false, fun _ _ _ => (0, some "res")⟩
        ⟨"calcW8", 7, false, some 3, some 4⟩ false false false
        (some ⟨some "req8", 5⟩)).status = CelixStatus.success ∧
    (rsaJsonRpcEndpoint_handleRequest
        ⟨fun _ => some (some "m1"), fun _ => false, fun _ _ _ => (0, some "res")⟩
        ⟨"calcW8", 7, false, some 3, some 4⟩ false false false
        (some ⟨some "req8", 5⟩)).resp = RespOut.nullResp ∧
    (rsaJsonRpcEndpoint_handleRequest
        ⟨fun _ => some (some "m1"), fun _ => false, fun _ _ _ => (0, some "res")⟩
        ⟨"calcW8", 7, false, some 3, some 4⟩ false false false
        (some ⟨some "req8", 5⟩)).serviceInvoked = false :=
  c8_veto_path
    ⟨fun _ => some (some "m1"), fun _ => false, fun _ _ _ => (0, some "res")⟩
    ⟨"calcW8", 7, false, some 3, some 4⟩ ⟨some "req8", 5⟩ "req8" "m1"
    rfl (by decide) rfl rfl

/-- C10: for every call that passes argument validation, the response
out-parameter is initialized to {NULL, 0} and is finally either still
{NULL, 0} (no response produced) or a buffer whose returned iov_len is the
string length plus one (terminating NUL included); it is never left
untouched. -/
theorem c10_response_invariant (env : JsonRpcEnv) (ep : JsonRpcEndpoint) (req : Iovec)
    (s : String) (hb : req.base = some s) (hl : req.len ≠ 0) :
    (rsaJsonRpcEndpoint_handleRequest env ep false false false (some req)).resp =
        RespOut.nullResp ∨
    ∃ str : String,
      (rsaJsonRpcEndpoint_handleRequest env ep false false false (some req)).resp =
        RespOut.buf str (str.length + 1) := by
  obtain ⟨b, l⟩ := req
  simp only [Iovec.base] at hb
  simp only [Iovec.len] at hl
  subst hb
  unfold rsaJsonRpcEndpoint_handleRequest
  cases hps : env.parse s with
  | none => simp [hl, hps]
  | some m =>
    cases m with
    | none => simp [hl, hps]
    | some sig =>
      simp only [hl, hps]
      simp [hl, hps]
      exact mkRespOut_shape _

/-- Witness for c10_response_invariant at a concrete bound endpoint whose
service produces a response. -/
theorem c10_response_invariant_witness :
    (rsaJsonRpcEndpoint_handleRequest
        ⟨fun _ => some (some "m1"), fun _ => true, fun _ _ _ => (0, some "res")⟩
        ⟨"calcW10", 7, false, some 3, some 4⟩ false false false
        (some ⟨some "req10", 6⟩)).resp = RespOut.nullResp ∨
    ∃ str : String,
      (rsaJsonRpcEndpoint_handleRequest
          ⟨fun _ => some (some "m1"), fun _ => true, fun _ _ _ => (0, some "res")⟩
          ⟨"calcW10", 7, false, some 3, some 4⟩ false false false
          (some ⟨some "req10", 6⟩)).resp = RespOut.buf str (str.length + 1) :=
  c10_response_invariant
    ⟨fun _ => some (some "m1"), fun _ => true, fun _ _ _ => (0, some "res")⟩
    ⟨"calcW10", 7, false, some 3, some 4⟩ ⟨some "req10", 6⟩ "req10"
    rfl (by decide)

/-- C2: handleRequest returns IllegalArgument with no response for a NULL
or empty request buffer and for undecodable requests (json parse failure
or missing method signature); with a decoded request, no veto and no bound
service it returns IllegalState; with a bound service whose invocation
fails it returns ServiceException; with a bound service whose invocation
succeeds it returns success with the encoded response. -/
theorem c2_handle_request_status (env : JsonRpcEnv) (ep : JsonRpcEndpoint)
    (req : Iovec) (s sig : String) :
    ((rsaJsonRpcEndpoint_handleRequest env ep false false false none).status =
        CelixStatus.illegalArgument ∧
      (rsaJsonRpcEndpoint_handleRequest env ep false false false none).resp.noResponse =
        true) ∧
    (req.base = none ∨ req.len = 0 →
      (rsaJsonRpcEndpoint_handleRequest env ep false false false (some req)).status =
          CelixStatus.illegalArgument ∧
      (rsaJsonRpcEndpoint_handleRequest env ep false false false
          (some req)).resp.noResponse = true) ∧
    (req.base = some s → req.len ≠ 0 →
      (env.parse s = none ∨ env.parse s = some none) →
      (rsaJsonRpcEndpoint_handleRequest env ep false false false (some req)).status =
          CelixStatus.illegalArgument ∧
      (rsaJsonRpcEndpoint_handleRequest env ep false false false
          (some req)).resp.noResponse = true) ∧
    (req.base = some s → req.len ≠ 0 → env.parse s = some (some sig) →
      env.pre sig = true → ep.service = none →
      (rsaJsonRpcEndpoint_handleRequest env ep false false false (some req)).status =
        CelixStatus.illegalState) ∧
    (∀ svc : Nat, req.base = some s → req.len ≠ 0 → env.parse s = some (some sig) →
      env.pre sig = true → ep.service = some svc →
      (env.call ep.intfType svc s).1 ≠ 0 →
      (rsaJsonRpcEndpoint_handleRequest env ep false false false (some req)).status =
        CelixStatus.serviceException) ∧
    (∀ (svc : Nat) (out : String), req.base = some s → req.len ≠ 0 →
      env.parse s = some (some sig) → env.pre sig = true → ep.service = some svc →
      env.call ep.intfType svc s = (0, some out) →
      (rsaJsonRpcEndpoint_handleRequest env ep false false false (some req)).status =
          CelixStatus.success ∧
      (rsaJsonRpcEndpoint_handleRequest env ep false false false (some req)).resp =
        RespOut.buf out (out.length + 1)) := by
  obtain ⟨b, l⟩ := req
  refine ⟨⟨rfl, rfl⟩, ?_, ?_, ?_, ?_, ?_⟩
  · intro h
    simp only [Iovec.base, Iovec.len] at h
    unfold rsaJsonRpcEndpoint_handleRequest
    rcases h with h | h
    · subst h
      exact ⟨rfl, rfl⟩
    · subst h
      cases b with
      | none => exact ⟨rfl, rfl⟩
      | some bs => simp [RespOut.noResponse]
  · intro hb hl hp
    simp only [Iovec.base] at hb
    simp only [Iovec.len] at hl
    subst hb
    unfold rsaJsonRpcEndpoint_handleRequest
    rcases hp with hp | hp <;> simp [hl, hp, RespOut.noResponse]
  · intro hb hl hp hc hsvc
    simp only [Iovec.base] at hb
    simp only [Iovec.len] at hl
    subst hb
    unfold rsaJsonRpcEndpoint_handleRequest
    simp [hl, hp, hc, hsvc]
  · intro svc hb hl hp hc hsvc hrc
    simp only [Iovec.base] at hb
    simp only [Iovec.len] at hl
    subst hb
    unfold rsaJsonRpcEndpoint_handleRequest
    simp [hl, hp, hc, hsvc, hrc]
  · intro svc out hb hl hp hc hsvc hcall
    simp only [Iovec.base] at hb
    simp only [Iovec.len] at hl
    subst hb
    unfold rsaJsonRpcEndpoint_handleRequest
    simp [hl, hp, hc, hsvc, hcall, mkRespOut]

/-- Witness for c2_handle_request_status: each clause discharged at a
concrete request. -/
theorem c2_handle_request_status_witness :
    ((rsaJsonRpcEndpoint_handleRequest envC2 epBoundC2 false false false none).status =
        CelixStatus.illegalArgument ∧
      (rsaJsonRpcEndpoint_handleRequest envC2 epBoundC2 false false false
          none).resp.noResponse = true) ∧
    ((rsaJsonRpcEndpoint_handleRequest envC2 epBoundC2 false false false
          (some ⟨none, 5⟩)).status = CelixStatus.illegalArgument ∧
      (rsaJsonRpcEndpoint_handleRequest envC2 epBoundC2 false false false
          (some ⟨none, 5⟩)).resp.noResponse = true) ∧
    ((rsaJsonRpcEndpoint_handleRequest envC2 epBoundC2 false false false
          (some ⟨some "bad", 3⟩)).status = CelixStatus.illegalArgument ∧
      (rsaJsonRpcEndpoint_handleRequest envC2 epBoundC2 false false false
          (some ⟨some "bad", 3⟩)).resp.noResponse = true) ∧
    ((rsaJsonRpcEndpoint_handleRequest envC2 epFreeC2 false false false
        (some ⟨some "good", 4⟩)).status = CelixStatus.illegalState) ∧
    ((rsaJsonRpcEndpoint_handleRequest envC2 epBoundC2 false false false
        (some ⟨some "err", 3⟩)).status = CelixStatus.serviceException) ∧
    ((rsaJsonRpcEndpoint_handleRequest envC2 epBoundC2 false false false
          (some ⟨some "good", 4⟩)).status = CelixStatus.success ∧
      (rsaJsonRpcEndpoint_handleRequest envC2 epBoundC2 false false false
          (some ⟨some "good", 4⟩)).resp = RespOut.buf "res" ("res".length + 1)) :=
  ⟨(c2_handle_request_status envC2 epBoundC2 ⟨none, 0⟩ "x" "m1").1,
   (c2_handle_request_status envC2 epBoundC2 ⟨none, 5⟩ "x" "m1").2.1 (Or.inl rfl),
   (c2_handle_request_status envC2 epBoundC2 ⟨some "bad", 3⟩ "bad" "m1").2.2.1
     rfl (by decide) (Or.inl (by decide)),
   (c2_handle_request_status envC2 epFreeC2 ⟨some "good", 4⟩ "good" "m1").2.2.2.1
     rfl (by decide) (by decide) rfl rfl,
   (c2_handle_request_status envC2 epBoundC2 ⟨some "err", 3⟩ "err" "m1").2.2.2.2.1
     3 rfl (by decide) (by decide) rfl rfl (by decide),
   (c2_handle_request_status envC2 epBoundC2 ⟨some "good", 4⟩ "good" "m1").2.2.2.2.2
     3 "res" rfl (by decide) (by decide) rfl rfl (by decide)⟩

/-- C3 counterexample: an endpoint with a configured call-log sink handles
a request whose json decoding fails, and zero records (not one) are
appended to the sink, refuting one-record-per-call regardless of outcome. -/
theorem c3_counterexample :
    (JsonRpcEndpoint.mk "calc3" 7 true (some 3) (some 4)).hasCallsLogFile = true ∧
    (rsaJsonRpcEndpoint_handleRequest envC2 ⟨"calc3", 7, true, some 3, some 4⟩
        false false false (some ⟨some "bad", 3⟩)).logRecords = [] ∧
    (rsaJsonRpcEndpoint_handleRequest envC2 ⟨"calc3", 7, true, some 3, some 4⟩
        false false false (some ⟨some "bad", 3⟩)).status = CelixStatus.illegalArgument :=
  ⟨rfl, by decide, by decide⟩

/-- C3 amended: on an endpoint with a configured call-log sink, every call
whose request passes validation and decodes appends exactly one structured
record (endpoint service name, numeric service id, request payload,
response payload matching the returned response, and status) regardless of
outcome; a call whose request fails to decode appends no record. -/
theorem c3_one_log_record (env : JsonRpcEnv) (ep : JsonRpcEndpoint) (req : Iovec)
    (s sig : String) (hsink : ep.hasCallsLogFile = true)
    (hb : req.base = some s) (hl : req.len ≠ 0) :
    (env.parse s = some (some sig) →
      ∃ r : CallLogRecord,
        (rsaJsonRpcEndpoint_handleRequest env ep false false false
            (some req)).logRecords = [r] ∧
        r.service = ep.serviceName ∧
        r.serviceId = ep.serviceId ∧
        r.requestPayload = s ∧
        r.status = (rsaJsonRpcEndpoint_handleRequest env ep false false false
            (some req)).status ∧
        mkRespOut r.responsePayload =
          (rsaJsonRpcEndpoint_handleRequest env ep false false false (some req)).resp) ∧
    ((env.parse s = none ∨ env.parse s = some none) →
      (rsaJsonRpcEndpoint_handleRequest env ep false false false
          (some req)).logRecords = []) := by
  obtain ⟨b, l⟩ := req
  simp only [Iovec.base] at hb
  simp only [Iovec.len] at hl
  subst hb
  constructor
  · intro hp
    unfold rsaJsonRpcEndpoint_handleRequest
    simp only [hl, hp]
    simp [hl, hp, hsink]
  · intro hp
    unfold rsaJsonRpcEndpoint_handleRequest
    rcases hp with hp | hp <;> simp [hl, hp]

/-- Witness for c3_one_log_record: one record on a decoded call, none on a
decode failure, at a concrete endpoint with a sink. -/
theorem c3_one_log_record_witness :
    (∃ r : CallLogRecord,
      (rsaJsonRpcEndpoint_handleRequest envC2 ⟨"calc3", 7, true, some 3, some 4⟩
          false false false (some ⟨some "good", 4⟩)).logRecords = [r] ∧
      r.service = (JsonRpcEndpoint.mk "calc3" 7 true (some 3) (some 4)).serviceName ∧
      r.serviceId = (JsonRpcEndpoint.mk "calc3" 7 true (some 3) (some 4)).serviceId ∧
      r.requestPayload = "good" ∧
      r.status = (rsaJsonRpcEndpoint_handleRequest envC2 ⟨"calc3", 7, true, some 3, some 4⟩
          false false false (some ⟨some "good", 4⟩)).status ∧
      mkRespOut r.responsePayload =
        (rsaJsonRpcEndpoint_handleRequest envC2 ⟨"calc3", 7, true, some 3, some 4⟩
            false false false (some ⟨some "good", 4⟩)).resp) ∧
    (rsaJsonRpcEndpoint_handleRequest envC2 ⟨"calc3", 7, true, some 3, some 4⟩
        false false false (some ⟨some "nom", 4⟩)).logRecords = [] :=
  ⟨(c3_one_log_record envC2 ⟨"calc3", 7, true, some 3, some 4⟩ ⟨some "good", 4⟩
      "good" "m1" rfl rfl (by decide)).1 (by decide),
   (c3_one_log_record envC2 ⟨"calc3", 7, true, some 3, some 4⟩ ⟨some "nom", 4⟩
      "nom" "m1" rfl rfl (by decide)).2 (Or.inr (by decide))⟩

/-- C1: evaluation of importRegistration_create at the claimed failure
inputs. With valid arguments but endpoint properties lacking the
imported-configuration property, and likewise with a configuration list
containing no entry with the recognized tag, the function returns
CELIX_SUCCESS (the status variable is never assigned before the goto)
while leaving the output pointer unset; only the too-long-filter path
returns CELIX_ILLEGAL_ARGUMENT, and the tracker-failure path
CELIX_SERVICE_EXCEPTION, both with the output pointer unset. -/
theorem c1_create_error_status_eval :
    ((importRegistration_create ⟨false, false, false, ⟨"svc1", 1, []⟩, 0, false, 1⟩).status =
        CelixStatus.success ∧
      (importRegistration_create ⟨false, false, false, ⟨"svc1", 1, []⟩, 0, false,
          1⟩).importOut = none) ∧
    ((importRegistration_create ⟨false, false, false,
        ⟨"svc1", 1, [(serviceImportedConfigsKey, "other.config,second")]⟩, 0, false,
        1⟩).status = CelixStatus.success ∧
      (importRegistration_create ⟨false, false, false,
          ⟨"svc1", 1, [(serviceImportedConfigsKey, "other.config,second")]⟩, 0, false,
          1⟩).importOut = none) ∧
    ((importRegistration_create ⟨false, false, false,
        ⟨"svc1", 1, [(serviceImportedConfigsKey,
          rsaRpcTypePfx ++ String.mk (List.replicate 100 'a'))]⟩, 0, false, 1⟩).status =
        CelixStatus.illegalArgument ∧
      (importRegistration_create ⟨false, false, false,
          ⟨"svc1", 1, [(serviceImportedConfigsKey,
            rsaRpcTypePfx ++ String.mk (List.replicate 100 'a'))]⟩, 0, false,
          1⟩).importOut = none) ∧
    ((importRegistration_create ⟨false, false, false,
        ⟨"svc1", 1, [(serviceImportedConfigsKey, rsaRpcTypePfx ++ "tag")]⟩, 0, false,
        (-1)⟩).status = CelixStatus.serviceException ∧
      (importRegistration_create ⟨false, false, false,
          ⟨"svc1", 1, [(serviceImportedConfigsKey, rsaRpcTypePfx ++ "tag")]⟩, 0, false,
          (-1)⟩).importOut = none) :=
  ⟨⟨rfl, rfl⟩, ⟨rfl, rfl⟩, ⟨by decide, by decide⟩, ⟨by decide, by decide⟩⟩

/-- C9: for every run of importRegistration_create and of
rsaJsonRpcEndpoint_create that does not produce a registration/endpoint,
the resources freed are exactly (a permutation of) the resources allocated
(cloned endpoint description, temporary configuration copy, mutex, the
struct itself), and on every non-success status the output pointer is left
unset. -/
theorem c9_no_leak_on_failure (inp : ImportCreateInput) (inp2 : EndpointCreateInput) :
    ((importRegistration_create inp).importOut = none →
      (importRegistration_create inp).allocated.Perm
        (importRegistration_create inp).freed) ∧
    ((importRegistration_create inp).status ≠ CelixStatus.success →
      (importRegistration_create inp).importOut = none) ∧
    ((rsaJsonRpcEndpoint_create inp2).endpointOut = none →
      (rsaJsonRpcEndpoint_create inp2).allocated.Perm
        (rsaJsonRpcEndpoint_create inp2).freed) ∧
    ((rsaJsonRpcEndpoint_create inp2).status ≠ CelixStatus.success →
      (rsaJsonRpcEndpoint_create inp2).endpointOut = none) := by
  refine ⟨?_, ?_, ?_, ?_⟩
  · unfold importRegistration_create
    dsimp only
    repeat' split
    all_goals first
      | (intro _; decide)
      | (intro _; dsimp only; decide)
      | (intro h; exact absurd h (by simp))
  · unfold importRegistration_create
    dsimp only
    repeat' split
    all_goals first
      | (intro h; exact absurd rfl h)
      | (intro _; rfl)
  · unfold rsaJsonRpcEndpoint_create
    dsimp only
    repeat' split
    all_goals first
      | (intro _; decide)
      | (intro _; dsimp only; decide)
      | (intro h; exact absurd h (by simp))
  · unfold rsaJsonRpcEndpoint_create
    dsimp only
    repeat' split
    all_goals first
      | (intro h; exact absurd rfl h)
      | (intro _; rfl)

/-- Witness for c9_no_leak_on_failure at concrete failing constructions:
a missing imported-configuration property on the import side and a mutex
creation failure plus a tracker failure on the export side. -/
theorem c9_no_leak_on_failure_witness :
    ((importRegistration_create ⟨false, false, false, ⟨"s9", 1, []⟩, 0, false,
        1⟩).allocated.Perm
      (importRegistration_create ⟨false, false, false, ⟨"s9", 1, []⟩, 0, false,
        1⟩).freed) ∧
    ((importRegistration_create ⟨true, false, false, ⟨"s9", 1, []⟩, 0, false,
        1⟩).importOut = none) ∧
    ((rsaJsonRpcEndpoint_create ⟨⟨"s9", 1, []⟩, false, CelixStatus.illegalState,
        1⟩).allocated.Perm
      (rsaJsonRpcEndpoint_create ⟨⟨"s9", 1, []⟩, false, CelixStatus.illegalState,
        1⟩).freed) ∧
    ((rsaJsonRpcEndpoint_create ⟨⟨"s9", 1, []⟩, false, CelixStatus.success,
        (-1)⟩).endpointOut = none) :=
  ⟨(c9_no_leak_on_failure ⟨false, false, false, ⟨"s9", 1, []⟩, 0, false, 1⟩
      ⟨⟨"s9", 1, []⟩, false, CelixStatus.illegalState, 1⟩).1 (by decide),
   (c9_no_leak_on_failure ⟨true, false, false, ⟨"s9", 1, []⟩, 0, false, 1⟩
      ⟨⟨"s9", 1, []⟩, false, CelixStatus.illegalState, 1⟩).2.1 (by decide),
   (c9_no_leak_on_failure ⟨false, false, false, ⟨"s9", 1, []⟩, 0, false, 1⟩
      ⟨⟨"s9", 1, []⟩, false, CelixStatus.illegalState, 1⟩).2.2.1 (by decide),
   (c9_no_leak_on_failure ⟨false, false, false, ⟨"s9", 1, []⟩, 0, false, 1⟩
      ⟨⟨"s9", 1, []⟩, false, CelixStatus.success, (-1)⟩).2.2.2 (by decide)⟩

end Celix
